import Mathlib

/-!
Formal model of the coral API's session-authority core, translated from the
TypeScript source: the token codec (jsonwebtoken sign/verify as used by the
routes), the session routes (register, login, refresh, logout, logout-all in
src/routes/public.ts), the access-token middleware (src/middleware/auth.ts)
and the task CRUD routes (src/routes/auth/task.ts).

Strings are modelled as lists of characters; wall-clock time as a natural
number of seconds; the MongoDB user collection as a list of user documents
keyed by username; bcrypt as an abstract hash/compare pair passed in as a
parameter.  Signed JWTs are modelled symbolically: a signed token is a value
carrying its payload, the signing secret, the issued-at time and the optional
expiry, and two such values are equal exactly when HS256 signing (which is
deterministic) would produce equal token strings.
-/

/-- Character strings, modelled as lists of characters. -/
abbrev Str := List Char

/-- Process-wide configuration, from src/config/index.ts.  `expiresIn`
models the configured "15m" access expiry (in seconds) and
`refreshExpiresIn` the "7d" refresh expiry; note that the route code never
passes either to `jwt.sign`. -/
structure Config where
  secret : Str
  expiresIn : Nat
  refreshSecret : Str
  refreshExpiresIn : Nat
deriving Repr, DecidableEq

/-- Access-token payload, from src/middleware/auth.ts (`JwtPayload`). -/
structure JwtPayload where
  username : Str
deriving Repr, DecidableEq

/-- Refresh-token payload, from src/middleware/auth.ts (`RefreshJwtPayload`). -/
structure RefreshJwtPayload where
  username : Str
  tokenId : Str
deriving Repr, DecidableEq

/-- A signed JWT over payload type `P`: the payload, the secret it was signed
with, the issued-at timestamp and the optional expiry timestamp.  HS256
signing is deterministic, so two signed token strings coincide exactly when
these four components coincide; `DecidableEq` on this structure models
string equality of tokens. -/
structure Jwt (P : Type) where
  payload : P
  secret : Str
  iat : Nat
  exp : Option Nat
deriving Repr, DecidableEq

/-- `jwt.sign(payload, secret, options?)`: attaches issued-at, and an expiry
only when an `expiresIn` option is passed. -/
def jwtSign {P : Type} (p : P) (secret : Str) (now : Nat) (expOpt : Option Nat) :
    Jwt P :=
  { payload := p, secret := secret, iat := now, exp := expOpt.map (fun d => now + d) }

/-- `jwt.verify(token, secret)`: succeeds with the payload when the token was
signed with `secret` and (if the token carries an `exp` claim) the clock has
not reached the expiry; fails otherwise. -/
def jwtVerify {P : Type} (tok : Jwt P) (secret : Str) (now : Nat) : Option P :=
  if tok.secret = secret then
    match tok.exp with
    | none => some tok.payload
    | some e => if now < e then some tok.payload else none
  else none

/-- The access-token mint of the login and refresh routes:
`jwt.sign(accessPayload, CONFIG.jwt.secret)` (src/routes/public.ts) — no
`expiresIn` option is passed, so the token carries no expiry. -/
def signAccessToken (cfg : Config) (username : Str) (now : Nat) : Jwt JwtPayload :=
  jwtSign { username := username } cfg.secret now none

/-- The refresh-token mint of the login route:
`jwt.sign(refreshPayload, CONFIG.jwt.refreshSecret)` (src/routes/public.ts) —
again without an `expiresIn` option. -/
def signRefreshToken (cfg : Config) (username tokenId : Str) (now : Nat) :
    Jwt RefreshJwtPayload :=
  jwtSign { username := username, tokenId := tokenId } cfg.refreshSecret now none

/-- One stored refresh-token record, from src/models/user.ts
(`RefreshTokenInfo`). -/
structure RefreshTokenInfo where
  token : Jwt RefreshJwtPayload
  tokenId : Str
  deviceInfo : Str
  createdAt : Nat
  lastUsed : Nat
deriving Repr, DecidableEq

/-- A persisted user document, from src/models/user.ts (`UserDocument`):
`password` holds the bcrypt hash. -/
structure UserDocument where
  username : Str
  password : Str
  refreshTokens : List RefreshTokenInfo
deriving Repr, DecidableEq

/-- The user collection; usernames are unique by the schema's constraint. -/
abbrev Store := List UserDocument

/-- `User.findOne({ username })`. -/
def findUser (store : Store) (username : Str) : Option UserDocument :=
  store.find? (fun u => decide (u.username = username))

/-- `user.save()` for a document loaded from the collection: replaces the
document with the same username. -/
def saveUser (store : Store) (u : UserDocument) : Store :=
  store.map (fun v => if v.username = u.username then u else v)

/-- Outcome of the store write in the register route: success, a
uniqueness-constraint (duplicate key, Mongo error code 11000) violation, or
any other persistence error. -/
inductive SaveOutcome where
  | ok
  | dupKey
  | otherErr
deriving Repr, DecidableEq

/-- Outcome of POST /public/register: `created` is HTTP 201, `duplicate` the
409 "Username already exists" response, `failure` the 500 "Registration
failed" response. -/
inductive RegisterResult where
  | created (store : Store)
  | duplicate
  | failure
deriving Repr, DecidableEq

/-- POST /public/register (src/routes/public.ts): pre-check read via
`findOne`, then `bcrypt.hash` and `user.save()`.  The catch block sends a
500 for every thrown error — it does not inspect the error for the
duplicate-key code 11000, so a uniqueness violation raised by the write
itself (a register race) lands on the 500 path, not the 409 path. -/
def registerHandler (hash : Str → Str) (store : Store) (save : SaveOutcome)
    (username password : Str) : RegisterResult :=
  match findUser store username with
  | some _ => .duplicate
  | none =>
    match save with
    | .ok => .created (store ++
        [{ username := username, password := hash password, refreshTokens := [] }])
    | .dupKey => .failure
    | .otherErr => .failure

/-- Outcome of POST /public/login: the 200 response body carries the two
fresh tokens, `invalidCredentials` is the 401 response (used both for an
unknown username and for a failed password compare). -/
inductive LoginResult where
  | ok (accessToken : Jwt JwtPayload) (refreshToken : Jwt RefreshJwtPayload)
      (store : Store)
  | invalidCredentials
deriving Repr, DecidableEq

/-- POST /public/login (src/routes/public.ts): find the user, compare the
password with `bcrypt.compare` (`cmp`), mint the access and refresh tokens,
push a new refresh record `{token, tokenId, deviceInfo, createdAt, lastUsed}`,
and if the array then holds more than 5 records keep only the last 5
(`user.refreshTokens.slice(-5)`), then save. -/
def loginHandler (cfg : Config) (cmp : Str → Str → Bool) (store : Store)
    (username password deviceInfo tokenId : Str) (now : Nat) : LoginResult :=
  match findUser store username with
  | none => .invalidCredentials
  | some user =>
    if cmp password user.password then
      let accessToken := signAccessToken cfg username now
      let refreshToken := signRefreshToken cfg username tokenId now
      let recs := user.refreshTokens ++
        [{ token := refreshToken, tokenId := tokenId, deviceInfo := deviceInfo,
           createdAt := now, lastUsed := now }]
      let recs2 := if recs.length > 5 then recs.drop (recs.length - 5) else recs
      .ok accessToken refreshToken (saveUser store { user with refreshTokens := recs2 })
    else .invalidCredentials

/-- Outcome of POST /public/refresh: the 200 response carries only a new
access token; `invalidRefreshToken` is the single 401 "Invalid refresh
token" response used for every failure. -/
inductive RefreshResult where
  | ok (accessToken : Jwt JwtPayload) (store : Store)
  | invalidRefreshToken
deriving Repr, DecidableEq

/-- The lastUsed update of the refresh route: `findIndex` of the first record
whose `token` equals the presented string, then set that record's `lastUsed`
to now (all other records and fields untouched). -/
def touchFirst (tok : Jwt RefreshJwtPayload) (now : Nat) :
    List RefreshTokenInfo → List RefreshTokenInfo
  | [] => []
  | r :: rs =>
    if r.token = tok then { r with lastUsed := now } :: rs
    else r :: touchFirst tok now rs

/-- POST /public/refresh (src/routes/public.ts): `jwt.verify` under the
refresh secret (any throw is caught and answered 401), then
`User.findOne({ username: decoded.username, "refreshTokens.token": refreshToken })`
(absence answered 401), then update the matching record's `lastUsed` and
save, then sign and return a fresh access token. -/
def refreshHandler (cfg : Config) (store : Store) (tok : Jwt RefreshJwtPayload)
    (now : Nat) : RefreshResult :=
  match jwtVerify tok cfg.refreshSecret now with
  | none => .invalidRefreshToken
  | some decoded =>
    match store.find? (fun u => decide (u.username = decoded.username) &&
        u.refreshTokens.any (fun r => decide (r.token = tok))) with
    | none => .invalidRefreshToken
    | some user =>
      .ok (signAccessToken cfg decoded.username now)
        (saveUser store { user with refreshTokens := touchFirst tok now user.refreshTokens })

/-- Outcome of POST /public/logout and /public/logout-all: 200 with a message,
or the 401 "Invalid refresh token" response when the token does not decode. -/
inductive LogoutResult where
  | ok (store : Store)
  | invalidRefreshToken
deriving Repr, DecidableEq

/-- POST /public/logout (src/routes/public.ts): `jwt.verify` under the
refresh secret (throw answered 401), then
`User.updateOne({username}, { $pull: { refreshTokens: { token: refreshToken } } })`
— every record whose `token` equals the presented string is removed — and a
200 response regardless of whether anything matched. -/
def logoutHandler (cfg : Config) (store : Store) (tok : Jwt RefreshJwtPayload)
    (now : Nat) : LogoutResult :=
  match jwtVerify tok cfg.refreshSecret now with
  | none => .invalidRefreshToken
  | some decoded =>
    .ok (store.map (fun u =>
      if u.username = decoded.username then
        { u with refreshTokens := u.refreshTokens.filter (fun r => !decide (r.token = tok)) }
      else u))

/-- POST /public/logout-all (src/routes/public.ts): `jwt.verify`, then
`$unset` of the whole `refreshTokens` array for the decoded username. -/
def logoutAllHandler (cfg : Config) (store : Store) (tok : Jwt RefreshJwtPayload)
    (now : Nat) : LogoutResult :=
  match jwtVerify tok cfg.refreshSecret now with
  | none => .invalidRefreshToken
  | some decoded =>
    .ok (store.map (fun u =>
      if u.username = decoded.username then { u with refreshTokens := [] } else u))

/-- A task document, from src/models/task.ts (`TaskDocument`); the automatic
timestamps are not referenced by any route logic modelled here. -/
structure TaskDocument where
  id : Nat
  username : Str
  encryptedData : Str
deriving Repr, DecidableEq

/-- The task collection, with unique ids. -/
abbrev TaskStore := List TaskDocument

/-- POST /auth/tasks (src/routes/auth/task.ts): creates a task owned by the
authenticated requester (`username: req.user?.username`). -/
def createTask (tasks : TaskStore) (requester : Str) (i : Nat)
    (encryptedData : Str) : TaskStore :=
  tasks ++ [{ id := i, username := requester, encryptedData := encryptedData }]

/-- GET /auth/tasks (src/routes/auth/task.ts): `Task.find()` — the query has
no username filter, so the whole collection is returned whoever the
authenticated requester is. -/
def getTasks (tasks : TaskStore) (requester : Str) : TaskStore := tasks

/-- Outcome of PUT /auth/tasks/:id: 200 with the updated document, or 404. -/
inductive TaskUpdResult where
  | ok (task : TaskDocument) (tasks : TaskStore)
  | notFound
deriving Repr, DecidableEq

/-- PUT /auth/tasks/:id (src/routes/auth/task.ts):
`Task.findByIdAndUpdate(id, { encryptedData }, { new: true })` — the lookup
is by id only, with no ownership check against the requester. -/
def updateTask (tasks : TaskStore) (requester : Str) (i : Nat)
    (encryptedData : Str) : TaskUpdResult :=
  match tasks.find? (fun t => decide (t.id = i)) with
  | none => .notFound
  | some t =>
    let t2 := { t with encryptedData := encryptedData }
    .ok t2 (tasks.map (fun x => if x.id = i then t2 else x))

/-- Outcome of DELETE /auth/tasks/:id: 200 with a message, or 404. -/
inductive TaskDelResult where
  | ok (tasks : TaskStore)
  | notFound
deriving Repr, DecidableEq

/-- DELETE /auth/tasks/:id (src/routes/auth/task.ts):
`Task.findByIdAndDelete(id)` — by id only, no ownership check. -/
def deleteTask (tasks : TaskStore) (requester : Str) (i : Nat) : TaskDelResult :=
  match tasks.find? (fun t => decide (t.id = i)) with
  | none => .notFound
  | some _ => .ok (tasks.filter (fun t => !decide (t.id = i)))

/-- JavaScript `String.prototype.split` with a one-character separator:
`"".split(s)` is `[""]`, separators at the ends produce empty segments. -/
def splitChar (c : Char) : Str → List Str
  | [] => [[]]
  | x :: xs =>
    if x = c then [] :: splitChar c xs
    else
      match splitChar c xs with
      | [] => [[x]]
      | h :: t => (x :: h) :: t

/-- Token extraction of the auth middleware (src/middleware/auth.ts):
`const token = authHeader?.split(" ")[1]` followed by the falsy check
`if (!token)` — a missing header, a header with no second space-separated
segment, and an empty second segment all yield no token. -/
def extractToken (authHeader : Option Str) : Option Str :=
  match authHeader with
  | none => none
  | some h =>
    match (splitChar ' ' h).get? 1 with
    | none => none
    | some t => if t = [] then none else some t

/-- Outcome of the auth middleware on a protected route: `noToken` is the
401 "No token" response, `invalidToken` the 403 "Invalid token" response,
and `authorized` means `req.user` was set to the decoded payload and the
downstream handler runs for that username. -/
inductive GateResult where
  | noToken
  | invalidToken
  | authorized (username : Str)
deriving Repr, DecidableEq

/-- The auth middleware (src/middleware/auth.ts): extract the second
space-separated segment of the Authorization header, answer 401 when there
is none, verify it as an access token (`verifyTok` stands for
`jwt.verify(token, CONFIG.jwt.secret, cb)`), answer 403 when verification
fails, and otherwise attach the decoded username and continue.  The
middleware performs no store lookup: its result is a function of the header
and the verifier alone. -/
def auth (verifyTok : Str → Option JwtPayload) (authHeader : Option Str) :
    GateResult :=
  match extractToken authHeader with
  | none => .noToken
  | some t =>
    match verifyTok t with
    | none => .invalidToken
    | some p => .authorized p.username

/-- A sample configuration: concrete secrets, the configured 15-minute access
expiry and 7-day refresh expiry in seconds (src/config/index.ts). -/
def demoCfg : Config :=
  { secret := ['s'], expiresIn := 900,
    refreshSecret := ['r'], refreshExpiresIn := 604800 }

/-- Sample strings for concrete instances. -/
def aliceS : Str := ['a', 'l', 'i', 'c', 'e']

def bobS : Str := ['b', 'o', 'b']

def pwS : Str := ['p', 'w']

def devS : Str := ['d', 'e', 'v']

def tidS : Str := ['t', '1']

def dataS : Str := ['x']

def newDataS : Str := ['y']

/-- Alice's user document as registration creates it. -/
def aliceUser0 : UserDocument :=
  { username := aliceS, password := pwS, refreshTokens := [] }

/-- The refresh record alice's first login appends. -/
def aliceRec0 : RefreshTokenInfo :=
  { token := signRefreshToken demoCfg aliceS tidS 0, tokenId := tidS,
    deviceInfo := devS, createdAt := 0, lastUsed := 0 }

/-- Alice's user document after that first login. -/
def aliceUser1 : UserDocument :=
  { username := aliceS, password := pwS, refreshTokens := [aliceRec0] }

/-- A second token id for alice, for a login from another device. -/
def tid2S : Str := ['t', '2']

/-- The refresh record alice's second login appends. -/
def aliceRec1 : RefreshTokenInfo :=
  { token := signRefreshToken demoCfg aliceS tid2S 0, tokenId := tid2S,
    deviceInfo := devS, createdAt := 0, lastUsed := 0 }

/-- Alice's user document with two live refresh records. -/
def aliceUser2 : UserDocument :=
  { username := aliceS, password := pwS, refreshTokens := [aliceRec0, aliceRec1] }

/-- Alice's document after a refresh at time 5 touched her first record. -/
def aliceUser1touched : UserDocument :=
  { username := aliceS, password := pwS,
    refreshTokens := [{ aliceRec0 with lastUsed := 5 }] }

/-- A concrete password compare: equality of the candidate and the stored
value (standing in for `bcrypt.compare` in concrete instances). -/
def cmp0 : Str → Str → Bool := fun p h => p == h

/-- A concrete access-token verifier for middleware instances: accepts the
one-character token string "T" as alice. -/
def v0 : Str → Option JwtPayload :=
  fun s => if s = ['T'] then some { username := aliceS } else none

/-- The token string "T" and a scheme word "Basic". -/
def tokS : Str := ['T']

def basicS : Str := ['B', 'a', 's', 'i', 'c']

/-- The store after a completed login, for chaining sequential logins in
statements: the store a successful login leaves behind (an unsuccessful
login leaves the store unchanged). -/
def loginStore (cfg : Config) (cmp : Str → Str → Bool) (store : Store)
    (username password deviceInfo tokenId : Str) (now : Nat) : Store :=
  match loginHandler cfg cmp store username password deviceInfo tokenId now with
  | .ok _ _ s => s
  | .invalidCredentials => store

/-- Whether a login attempt succeeded. -/
def LoginResult.success : LoginResult → Bool
  | .ok _ _ _ => true
  | .invalidCredentials => false

/-- The refresh record a login for `u` with token id `tid` and device `d` at
time `now` pushes onto the user's sequence. -/
def mkRec (cfg : Config) (u tid d : Str) (now : Nat) : RefreshTokenInfo :=
  { token := signRefreshToken cfg u tid now, tokenId := tid, deviceInfo := d,
    createdAt := now, lastUsed := now }

/-- Six distinct token ids for six sequential logins. -/
def t1S : Str := ['1']

def t2S : Str := ['2']

def t3S : Str := ['3']

def t4S : Str := ['4']

def t5S : Str := ['5']

def t6S : Str := ['6']

/-- Alice's stores after each of six sequential logins at time 0. -/
def c6S1 : Store :=
  [{ username := aliceS, password := pwS,
     refreshTokens := [mkRec demoCfg aliceS t1S devS 0] }]

def c6S2 : Store :=
  [{ username := aliceS, password := pwS,
     refreshTokens := [mkRec demoCfg aliceS t1S devS 0,
                       mkRec demoCfg aliceS t2S devS 0] }]

def c6S3 : Store :=
  [{ username := aliceS, password := pwS,
     refreshTokens := [mkRec demoCfg aliceS t1S devS 0,
                       mkRec demoCfg aliceS t2S devS 0,
                       mkRec demoCfg aliceS t3S devS 0] }]

def c6S4 : Store :=
  [{ username := aliceS, password := pwS,
     refreshTokens := [mkRec demoCfg aliceS t1S devS 0,
                       mkRec demoCfg aliceS t2S devS 0,
                       mkRec demoCfg aliceS t3S devS 0,
                       mkRec demoCfg aliceS t4S devS 0] }]

def c6S5 : Store :=
  [{ username := aliceS, password := pwS,
     refreshTokens := [mkRec demoCfg aliceS t1S devS 0,
                       mkRec demoCfg aliceS t2S devS 0,
                       mkRec demoCfg aliceS t3S devS 0,
                       mkRec demoCfg aliceS t4S devS 0,
                       mkRec demoCfg aliceS t5S devS 0] }]

/-- After the sixth login the first record has been evicted. -/
def c6S6 : Store :=
  [{ username := aliceS, password := pwS,
     refreshTokens := [mkRec demoCfg aliceS t2S devS 0,
                       mkRec demoCfg aliceS t3S devS 0,
                       mkRec demoCfg aliceS t4S devS 0,
                       mkRec demoCfg aliceS t5S devS 0,
                       mkRec demoCfg aliceS t6S devS 0] }]

/-- The task alice creates in the concrete cross-user scenario. -/
def aliceTaskD : TaskDocument := { id := 0, username := aliceS, encryptedData := dataS }

/-- Payload equality and secret match are what a successful `jwt.verify`
yields. -/
theorem jwtVerify_eq_some {P : Type} {tok : Jwt P} {s : Str} {now : Nat} {p : P}
    (h : jwtVerify tok s now = some p) : p = tok.payload ∧ tok.secret = s := by
  unfold jwtVerify at h
  by_cases hs : tok.secret = s
  · rw [if_pos hs] at h
    refine ⟨?_, hs⟩
    cases he : tok.exp with
    | none => rw [he] at h; exact (Option.some.inj h).symm
    | some e =>
      rw [he] at h
      dsimp only at h
      by_cases hlt : now < e
      · rw [if_pos hlt] at h; exact (Option.some.inj h).symm
      · rw [if_neg hlt] at h; cases h
  · rw [if_neg hs] at h; cases h

/-- Success characterization of the refresh route: it answers 200 exactly
when the token verifies under the refresh secret and the store holds, under
the token's embedded username, a record whose `token` field equals the
presented token. -/
theorem refreshHandler_ok_iff (cfg : Config) (store : Store)
    (tok : Jwt RefreshJwtPayload) (now : Nat) :
    (∃ a s2, refreshHandler cfg store tok now = .ok a s2) ↔
      ((jwtVerify tok cfg.refreshSecret now).isSome ∧
       ∃ u ∈ store, u.username = tok.payload.username ∧
         ∃ r ∈ u.refreshTokens, r.token = tok) := by
  constructor
  · rintro ⟨a, s2, h⟩
    unfold refreshHandler at h
    split at h
    · cases h
    next decoded hv =>
      split at h
      · cases h
      next user hf =>
        obtain ⟨hp, -⟩ := jwtVerify_eq_some hv
        have hmem := List.mem_of_find?_eq_some hf
        have hpred := List.find?_some hf
        simp only [Bool.and_eq_true, decide_eq_true_eq, List.any_eq_true] at hpred
        obtain ⟨hname, r, hr, hrt⟩ := hpred
        rw [hv]
        exact ⟨by simp, user, hmem, by rw [← hp]; exact hname, r, hr, hrt⟩
  · rintro ⟨hsome, u, hu, hname, r, hr, hrt⟩
    obtain ⟨decoded, hv⟩ := Option.isSome_iff_exists.mp hsome
    obtain ⟨hp, -⟩ := jwtVerify_eq_some hv
    subst hp
    unfold refreshHandler
    rw [hv]
    dsimp only
    cases hf : store.find? (fun w => decide (w.username = tok.payload.username) &&
        w.refreshTokens.any (fun r => decide (r.token = tok))) with
    | none =>
      rw [List.find?_eq_none] at hf
      have hpu : (fun w : UserDocument => decide (w.username = tok.payload.username) &&
          w.refreshTokens.any (fun r => decide (r.token = tok))) u = true := by
        simp only [Bool.and_eq_true, decide_eq_true_eq, List.any_eq_true]
        exact ⟨hname, r, hr, by simp [hrt]⟩
      exact absurd hpu (by simpa using hf u hu)
    | some user =>
      exact ⟨_, _, rfl⟩

/-- C1: the spec and the repository's own documentation state that an access
token carries a 15-minute expiry and fails verification afterwards; the
login route signs the access token without any `expiresIn` option, so the
minted token carries no `exp` claim and still verifies long after the
configured `expiresIn` window (here, at one million seconds for a token
minted at time zero against the 900-second window).  The round-trip half of
the claim holds — the username is recovered — but the expiry half fails. -/
theorem C1_access_token_never_expires :
    demoCfg.expiresIn < 1000000 ∧
    (signAccessToken demoCfg aliceS 0).exp = none ∧
    jwtVerify (signAccessToken demoCfg aliceS 0) demoCfg.secret 1000000 =
      some { username := aliceS } :=
  ⟨by decide, rfl, rfl⟩

/-- C2: the task routes have no ownership scoping.  With a single task
created by alice, bob's GET /auth/tasks returns alice's task, bob's
PUT /auth/tasks/0 succeeds and rewrites alice's task, and bob's
DELETE /auth/tasks/0 succeeds and removes it — contradicting the claim that
two users' task sets never intersect under list/update/delete. -/
theorem C2_cross_user_task_access :
    createTask [] aliceS 0 dataS = [aliceTaskD] ∧
    aliceTaskD.username ≠ bobS ∧
    getTasks [aliceTaskD] bobS = [aliceTaskD] ∧
    updateTask [aliceTaskD] bobS 0 newDataS =
      .ok { aliceTaskD with encryptedData := newDataS }
        [{ aliceTaskD with encryptedData := newDataS }] ∧
    deleteTask [aliceTaskD] bobS 0 = .ok [] := by
  refine ⟨rfl, by decide, rfl, by decide, by decide⟩

/-- C3: in the duplicate-username race — the pre-check read sees no user,
the store write then fails with the uniqueness-constraint (duplicate key)
error — the register route's catch block answers 500 (StorageFailure), not
the 409 (DuplicateUsername) the claim requires: the catch does not inspect
the error for code 11000. -/
theorem C3_register_race_gives_500 :
    registerHandler (fun p => 'h' :: p) [] .dupKey aliceS pwS = .failure ∧
    registerHandler (fun p => 'h' :: p) [] .dupKey aliceS pwS ≠ .duplicate := by
  refine ⟨rfl, by decide⟩

/-- Failure characterization of the refresh route, complementing
`refreshHandler_ok_iff`. -/
theorem refreshHandler_invalid_iff (cfg : Config) (store : Store)
    (tok : Jwt RefreshJwtPayload) (now : Nat) :
    (refreshHandler cfg store tok now = .invalidRefreshToken) ↔
      ¬ ((jwtVerify tok cfg.refreshSecret now).isSome ∧
       ∃ u ∈ store, u.username = tok.payload.username ∧
         ∃ r ∈ u.refreshTokens, r.token = tok) := by
  have h := refreshHandler_ok_iff cfg store tok now
  constructor
  · intro hinv hc
    obtain ⟨a, s2, hok⟩ := h.mpr hc
    rw [hok] at hinv
    exact absurd hinv (by simp)
  · intro hnc
    cases hr : refreshHandler cfg store tok now with
    | ok a s2 => exact absurd (h.mp ⟨a, s2, hr⟩) hnc
    | invalidRefreshToken => rfl

/-- C4: RefreshAccessToken succeeds (answers 200 with a new access token)
exactly when the presented token's signature verifies under the refresh
secret and the store holds, under the embedded username, a refresh record
whose `token` field equals the presented token; in every other case the
route answers the single signal `invalidRefreshToken` (HTTP 401). -/
theorem C4_refresh_success_iff (cfg : Config) (store : Store)
    (tok : Jwt RefreshJwtPayload) (now : Nat) :
    ((∃ a s2, refreshHandler cfg store tok now = .ok a s2) ↔
      ((jwtVerify tok cfg.refreshSecret now).isSome ∧
       ∃ u ∈ store, u.username = tok.payload.username ∧
         ∃ r ∈ u.refreshTokens, r.token = tok)) ∧
    ((refreshHandler cfg store tok now = .invalidRefreshToken) ↔
      ¬ ((jwtVerify tok cfg.refreshSecret now).isSome ∧
       ∃ u ∈ store, u.username = tok.payload.username ∧
         ∃ r ∈ u.refreshTokens, r.token = tok)) :=
  ⟨refreshHandler_ok_iff cfg store tok now,
   refreshHandler_invalid_iff cfg store tok now⟩

/-- C5: whenever a login completes successfully, the logged-in user's
refresh-record sequence in the resulting store has length at most 5: the
route pushes one record and, when the array then exceeds 5, keeps only the
last 5. -/
theorem C5_login_caps_records (cfg : Config) (cmp : Str → Str → Bool)
    (store : Store) (username password deviceInfo tokenId : Str) (now : Nat)
    (a : Jwt JwtPayload) (r : Jwt RefreshJwtPayload) (store2 : Store)
    (hok : loginHandler cfg cmp store username password deviceInfo tokenId now =
      .ok a r store2)
    (u : UserDocument) (hu : u ∈ store2) (hname : u.username = username) :
    u.refreshTokens.length ≤ 5 := by
  unfold loginHandler at hok
  cases hf : findUser store username with
  | none => rw [hf] at hok; exact absurd hok (by simp)
  | some user =>
    rw [hf] at hok
    dsimp only at hok
    have huser : user.username = username := by
      have := List.find?_some hf
      exact of_decide_eq_true this
    by_cases hcmp : cmp password user.password
    · rw [if_pos hcmp] at hok
      simp only [LoginResult.ok.injEq] at hok
      obtain ⟨-, -, hs⟩ := hok
      subst hs
      unfold saveUser at hu
      obtain ⟨v, hv, hveq⟩ := List.mem_map.mp hu
      by_cases hvu : v.username = user.username
      · rw [if_pos hvu] at hveq
        subst hveq
        simp only
        split
        · rw [List.length_drop]
          omega
        · simp only [List.length_append, List.length_singleton] at *
          omega
      · rw [if_neg hvu] at hveq
        subst hveq
        exact absurd (hname.trans huser.symm) hvu
    · rw [if_neg hcmp] at hok
      exact absurd hok (by simp)

/-- Concrete instance of C5: a first login for alice on an empty record
sequence leaves her with one record, within the cap. -/
theorem C5_login_caps_records_witness :
    aliceUser1.refreshTokens.length ≤ 5 :=
  C5_login_caps_records demoCfg (fun p h => p == h) [aliceUser0]
    aliceS pwS devS tidS 0
    (signAccessToken demoCfg aliceS 0) (signRefreshToken demoCfg aliceS tidS 0)
    [aliceUser1] (by decide) aliceUser1 (by decide) (by decide)

/-- A string without the separator splits into a single segment. -/
theorem splitChar_of_not_mem (c : Char) (l : Str) (h : c ∉ l) :
    splitChar c l = [l] := by
  induction l with
  | nil => rfl
  | cons x xs ih =>
    rw [List.mem_cons, not_or] at h
    obtain ⟨hx, hxs⟩ := h
    unfold splitChar
    rw [if_neg (fun he => hx he.symm), ih hxs]

/-- Splitting at the first separator: a separator-free head segment followed
by the separator detaches as the first segment. -/
theorem splitChar_append (c : Char) (a b : Str) (ha : c ∉ a) :
    splitChar c (a ++ c :: b) = a :: splitChar c b := by
  induction a with
  | nil =>
    rw [List.nil_append]
    simp [splitChar]
  | cons x xs ih =>
    rw [List.mem_cons, not_or] at ha
    obtain ⟨hx, hxs⟩ := ha
    rw [List.cons_append]
    simp only [splitChar]
    rw [if_neg (fun he => hx he.symm), ih hxs]

/-- C9: for every request to a protected route, the middleware (a) rejects
with `noToken` (401) when no token can be extracted from the Authorization
header, (b) rejects with `invalidToken` (403) when the extracted token fails
verification, and (c) attaches the decoded username and lets the downstream
handler run when verification succeeds.  The middleware takes no store at
all — `auth` is a function of the header and the token verifier only — so no
store lookup happens on this path. -/
theorem C9_gate_three_cases (v : Str → Option JwtPayload) (h : Option Str) :
    (extractToken h = none → auth v h = .noToken) ∧
    (∀ t, extractToken h = some t → v t = none → auth v h = .invalidToken) ∧
    (∀ t p, extractToken h = some t → v t = some p →
      auth v h = .authorized p.username) := by
  refine ⟨?_, ?_, ?_⟩
  · intro he
    unfold auth
    rw [he]
  · intro t he hv
    unfold auth
    rw [he]
    dsimp only
    rw [hv]
  · intro t p he hv
    unfold auth
    rw [he]
    dsimp only
    rw [hv]

/-- C10: the middleware takes the second space-separated segment of the
Authorization header and never checks the scheme word: for a valid access
token string `t`, a header "<scheme> t" with any space-free scheme word
authorizes the request, while a bare single-segment header consisting of
that same valid token is rejected as `noToken` (401). -/
theorem C10_scheme_not_checked (v : Str → Option JwtPayload) (scheme t : Str)
    (p : JwtPayload) (hs : ' ' ∉ scheme) (ht : ' ' ∉ t) (hne : t ≠ [])
    (hv : v t = some p) :
    auth v (some (scheme ++ ' ' :: t)) = .authorized p.username ∧
    auth v (some t) = .noToken := by
  constructor
  · unfold auth extractToken
    dsimp only
    rw [splitChar_append ' ' scheme t hs, splitChar_of_not_mem ' ' t ht]
    simp only [List.get?]
    rw [if_neg hne]
    dsimp only
    rw [hv]
  · unfold auth extractToken
    dsimp only
    rw [splitChar_of_not_mem ' ' t ht]
    rfl

/-- Concrete instance of C10: the header "Basic T" authorizes with the valid
token string "T", while the bare header "T" is rejected as no token. -/
theorem C10_scheme_not_checked_witness :
    auth v0 (some (basicS ++ ' ' :: tokS)) = .authorized aliceS ∧
    auth v0 (some tokS) = .noToken :=
  C10_scheme_not_checked v0 basicS tokS { username := aliceS }
    (by decide) (by decide) (by decide) (by decide)

/-- The lastUsed update leaves every record either untouched or — when it is
a record whose token matches — changed only in its `lastUsed` field. -/
theorem touchFirst_forall₂ (tok : Jwt RefreshJwtPayload) (now : Nat)
    (l : List RefreshTokenInfo) :
    List.Forall₂ (fun r s => s = r ∨
      (s = { r with lastUsed := now } ∧ r.token = tok)) l (touchFirst tok now l) := by
  induction l with
  | nil => exact List.Forall₂.nil
  | cons r rs ih =>
    unfold touchFirst
    by_cases h : r.token = tok
    · rw [if_pos h]
      exact List.Forall₂.cons (Or.inr ⟨rfl, h⟩)
        (List.forall₂_same.mpr (fun s _ => Or.inl rfl))
    · rw [if_neg h]
      exact List.Forall₂.cons (Or.inl rfl) ih

/-- The lastUsed update changes no `token` field. -/
theorem touchFirst_map_token (tok : Jwt RefreshJwtPayload) (now : Nat)
    (l : List RefreshTokenInfo) :
    (touchFirst tok now l).map (fun r => r.token) = l.map (fun r => r.token) := by
  induction l with
  | nil => rfl
  | cons r rs ih =>
    unfold touchFirst
    by_cases h : r.token = tok
    · rw [if_pos h]
      simp
    · rw [if_neg h]
      simp [ih]

/-- Saving a document whose username matches a stored document's puts the
saved document into the collection. -/
theorem saveUser_mem (store : Store) (u2 : UserDocument) (user : UserDocument)
    (hmem : user ∈ store) (h : user.username = u2.username) :
    u2 ∈ saveUser store u2 := by
  unfold saveUser
  refine List.mem_map.mpr ⟨user, hmem, ?_⟩
  rw [if_pos h]

/-- C7: a successful refresh changes at most the `lastUsed` field of the
record matching the presented token: position for position, every user keeps
its username and password, every record is either unchanged or is a record
whose token equals the presented token with only `lastUsed` set to now
(hence record counts and the token, tokenId, createdAt and deviceInfo
sequences are unchanged), the stored token strings are exactly those stored
before (no refresh token is rotated or issued on this path), and the same
refresh token still refreshes successfully afterwards, at any time at which
it still verifies.  Usernames are assumed pairwise distinct in the store, as
the schema's uniqueness constraint guarantees. -/
theorem C7_refresh_touches_only_lastUsed (cfg : Config) (store : Store)
    (tok : Jwt RefreshJwtPayload) (now : Nat) (a : Jwt JwtPayload)
    (store2 : Store)
    (hnodup : (store.map (fun u => u.username)).Nodup)
    (hok : refreshHandler cfg store tok now = .ok a store2) :
    List.Forall₂ (fun v w =>
      w.username = v.username ∧ w.password = v.password ∧
      List.Forall₂ (fun r s => s = r ∨
        (s = { r with lastUsed := now } ∧ r.token = tok))
        v.refreshTokens w.refreshTokens) store store2 ∧
    store2.map (fun v => v.refreshTokens.map (fun r => r.token)) =
      store.map (fun v => v.refreshTokens.map (fun r => r.token)) ∧
    (∀ now2, (jwtVerify tok cfg.refreshSecret now2).isSome →
      ∃ a2 s2, refreshHandler cfg store2 tok now2 = .ok a2 s2) := by
  unfold refreshHandler at hok
  split at hok
  · cases hok
  next decoded hv =>
    split at hok
    · cases hok
    next user hf =>
      obtain ⟨hp, -⟩ := jwtVerify_eq_some hv
      simp only [RefreshResult.ok.injEq] at hok
      obtain ⟨-, hs2⟩ := hok
      subst hs2
      have hmem := List.mem_of_find?_eq_some hf
      have hpred := List.find?_some hf
      simp only [Bool.and_eq_true, decide_eq_true_eq, List.any_eq_true] at hpred
      obtain ⟨hname, r0, hr0, hr0t⟩ := hpred
      refine ⟨?_, ?_, ?_⟩
      · unfold saveUser
        rw [List.forall₂_map_right_iff, List.forall₂_same]
        intro v hv2
        by_cases hvu : v.username = user.username
        · have hv_eq : v = user :=
            List.inj_on_of_nodup_map hnodup hv2 hmem hvu
          subst hv_eq
          rw [if_pos rfl]
          exact ⟨rfl, rfl, touchFirst_forall₂ tok now v.refreshTokens⟩
        · rw [if_neg hvu]
          exact ⟨rfl, rfl, List.forall₂_same.mpr (fun s _ => Or.inl rfl)⟩
      · unfold saveUser
        rw [List.map_map]
        refine List.map_congr_left ?_
        intro v hv2
        dsimp only [Function.comp]
        by_cases hvu : v.username = user.username
        · have hv_eq : v = user :=
            List.inj_on_of_nodup_map hnodup hv2 hmem hvu
          subst hv_eq
          rw [if_pos rfl]
          exact touchFirst_map_token tok now v.refreshTokens
        · rw [if_neg hvu]
      · intro now2 hsome2
        rw [refreshHandler_ok_iff]
        refine ⟨hsome2,
          { user with refreshTokens := touchFirst tok now user.refreshTokens },
          ?_, ?_, ?_⟩
        · exact saveUser_mem store
            { user with refreshTokens := touchFirst tok now user.refreshTokens }
            user hmem rfl
        · rw [← hp]
          exact hname
        · have htok : tok ∈ (touchFirst tok now user.refreshTokens).map
              (fun r => r.token) := by
            rw [touchFirst_map_token]
            exact List.mem_map.mpr ⟨r0, hr0, hr0t⟩
          obtain ⟨s, hs, hst⟩ := List.mem_map.mp htok
          exact ⟨s, hs, hst⟩

/-- Concrete instance of C7: refreshing alice's only token at time 5 leaves
one record, identical but for `lastUsed`, and the token still refreshes. -/
theorem C7_refresh_touches_only_lastUsed_witness :
    List.Forall₂ (fun v w =>
      w.username = v.username ∧ w.password = v.password ∧
      List.Forall₂ (fun r s => s = r ∨
        (s = { r with lastUsed := 5 } ∧
          r.token = signRefreshToken demoCfg aliceS tidS 0))
        v.refreshTokens w.refreshTokens) [aliceUser1] [aliceUser1touched] ∧
    ([aliceUser1touched].map (fun v => v.refreshTokens.map (fun r => r.token)) =
      [aliceUser1].map (fun v => v.refreshTokens.map (fun r => r.token))) ∧
    (∀ now2, (jwtVerify (signRefreshToken demoCfg aliceS tidS 0)
        demoCfg.refreshSecret now2).isSome →
      ∃ a2 s2, refreshHandler demoCfg [aliceUser1touched]
        (signRefreshToken demoCfg aliceS tidS 0) now2 = .ok a2 s2) :=
  C7_refresh_touches_only_lastUsed demoCfg [aliceUser1]
    (signRefreshToken demoCfg aliceS tidS 0) 5
    (signAccessToken demoCfg aliceS 5) [aliceUser1touched]
    (by decide) (by decide)

/-- C8: for any token that decodes under the refresh secret, logout succeeds
(even when no record matches), the user's record sequence loses exactly the
entries whose `token` equals the presented token while every other user's
records and the user's other records are untouched, and any other token that
refreshed successfully before the logout still does afterwards. -/
theorem C8_logout_removes_exactly_matching (cfg : Config) (store : Store)
    (tok : Jwt RefreshJwtPayload) (now : Nat) (p : RefreshJwtPayload)
    (hdec : jwtVerify tok cfg.refreshSecret now = some p) :
    ∃ store2, logoutHandler cfg store tok now = .ok store2 ∧
      List.Forall₂ (fun v w =>
        w.username = v.username ∧ w.password = v.password ∧
        (v.username = p.username →
          w.refreshTokens =
            v.refreshTokens.filter (fun r => !decide (r.token = tok))) ∧
        (v.username ≠ p.username → w.refreshTokens = v.refreshTokens))
        store store2 ∧
      (∀ tok2, tok2 ≠ tok →
        (∃ a s2, refreshHandler cfg store tok2 now = .ok a s2) →
        ∃ a s2, refreshHandler cfg store2 tok2 now = .ok a s2) := by
  refine ⟨store.map (fun u => if u.username = p.username then
      { u with refreshTokens :=
          u.refreshTokens.filter (fun r => !decide (r.token = tok)) }
      else u), ?_, ?_, ?_⟩
  · unfold logoutHandler
    rw [hdec]
  · rw [List.forall₂_map_right_iff, List.forall₂_same]
    intro u hu
    by_cases hname : u.username = p.username
    · rw [if_pos hname]
      exact ⟨rfl, rfl, fun _ => rfl, fun hn => absurd hname hn⟩
    · rw [if_neg hname]
      exact ⟨rfl, rfl, fun hy => absurd hy hname, fun _ => rfl⟩
  · intro tok2 hne2 hok
    rw [refreshHandler_ok_iff] at hok ⊢
    obtain ⟨hsome, u, hu, hname, r, hr, hrt⟩ := hok
    refine ⟨hsome, ?_⟩
    by_cases hup : u.username = p.username
    · refine ⟨{ u with refreshTokens :=
          u.refreshTokens.filter (fun r => !decide (r.token = tok)) }, ?_, hname, r, ?_, hrt⟩
      · exact List.mem_map.mpr ⟨u, hu, by simp [hup]⟩
      · rw [List.mem_filter]
        refine ⟨hr, ?_⟩
        simp [hrt, hne2]
    · exact ⟨u, List.mem_map.mpr ⟨u, hu, by simp [hup]⟩, hname, r, hr, hrt⟩

/-- Concrete instance of C8: with two live records, logging out the first
removes exactly it, and the second token still refreshes. -/
theorem C8_logout_removes_exactly_matching_witness :
    ∃ store2, logoutHandler demoCfg [aliceUser2]
        (signRefreshToken demoCfg aliceS tidS 0) 0 = .ok store2 ∧
      List.Forall₂ (fun v w =>
        w.username = v.username ∧ w.password = v.password ∧
        (v.username = aliceS →
          w.refreshTokens = v.refreshTokens.filter
            (fun r => !decide (r.token = signRefreshToken demoCfg aliceS tidS 0))) ∧
        (v.username ≠ aliceS → w.refreshTokens = v.refreshTokens))
        [aliceUser2] store2 ∧
      (∀ tok2, tok2 ≠ signRefreshToken demoCfg aliceS tidS 0 →
        (∃ a s2, refreshHandler demoCfg [aliceUser2] tok2 0 = .ok a s2) →
        ∃ a s2, refreshHandler demoCfg store2 tok2 0 = .ok a s2) :=
  C8_logout_removes_exactly_matching demoCfg [aliceUser2]
    (signRefreshToken demoCfg aliceS tidS 0) 0
    { username := aliceS, tokenId := tidS } (by decide)

/-- A token minted with the refresh secret always verifies under the refresh
secret: the route passes no `expiresIn`, so the token carries no expiry. -/
theorem jwtVerify_signRefresh (cfg : Config) (u tid : Str) (now now2 : Nat) :
    jwtVerify (signRefreshToken cfg u tid now) cfg.refreshSecret now2 =
      some { username := u, tokenId := tid } := by
  simp [jwtVerify, signRefreshToken, jwtSign]

/-- One login against a single-user store, computed: the tokens minted and
the record pushed (with the cap applied). -/
theorem login_singleton (cfg : Config) (cmp : Str → Str → Bool)
    (u hashv pw d tid : Str) (now : Nat) (recs : List RefreshTokenInfo)
    (hcmp : cmp pw hashv = true) :
    loginHandler cfg cmp [{ username := u, password := hashv, refreshTokens := recs }]
        u pw d tid now =
      .ok (signAccessToken cfg u now) (signRefreshToken cfg u tid now)
        [{ username := u, password := hashv, refreshTokens :=
            if (recs ++ [mkRec cfg u tid d now]).length > 5 then
              (recs ++ [mkRec cfg u tid d now]).drop
                ((recs ++ [mkRec cfg u tid d now]).length - 5)
            else recs ++ [mkRec cfg u tid d now] }] := by
  simp [loginHandler, findUser, saveUser, mkRec, hcmp]

/-- C6: starting from a freshly registered user, six sequential successful
logins (with pairwise distinct fresh token ids, as the cryptographically
random generator yields) leave exactly the records of logins 2..6 in
insertion order — the retention cap truncates by append order, not by
`lastUsed` recency — so the refresh token issued by the 1st login no longer
refreshes (its record was evicted) while the tokens of the 5 most recent
logins all still refresh successfully. -/
theorem C6_sixth_login_evicts_first (cfg : Config) (cmp : Str → Str → Bool)
    (u hashv pw d t1 t2 t3 t4 t5 t6 : Str) (now now2 : Nat)
    (a1 a2 a3 a4 a5 a6 : Jwt JwtPayload)
    (r1 r2 r3 r4 r5 r6 : Jwt RefreshJwtPayload)
    (S1 S2 S3 S4 S5 S6 : Store)
    (hcmp : cmp pw hashv = true)
    (h2 : t2 ≠ t1) (h3 : t3 ≠ t1) (h4 : t4 ≠ t1) (h5 : t5 ≠ t1) (h6 : t6 ≠ t1)
    (hL1 : loginHandler cfg cmp
      [{ username := u, password := hashv, refreshTokens := [] }]
      u pw d t1 now = .ok a1 r1 S1)
    (hL2 : loginHandler cfg cmp S1 u pw d t2 now = .ok a2 r2 S2)
    (hL3 : loginHandler cfg cmp S2 u pw d t3 now = .ok a3 r3 S3)
    (hL4 : loginHandler cfg cmp S3 u pw d t4 now = .ok a4 r4 S4)
    (hL5 : loginHandler cfg cmp S4 u pw d t5 now = .ok a5 r5 S5)
    (hL6 : loginHandler cfg cmp S5 u pw d t6 now = .ok a6 r6 S6) :
    S6 = [{ username := u, password := hashv, refreshTokens :=
      [mkRec cfg u t2 d now, mkRec cfg u t3 d now, mkRec cfg u t4 d now,
       mkRec cfg u t5 d now, mkRec cfg u t6 d now] }] ∧
    (r1 = signRefreshToken cfg u t1 now ∧ r2 = signRefreshToken cfg u t2 now ∧
     r3 = signRefreshToken cfg u t3 now ∧ r4 = signRefreshToken cfg u t4 now ∧
     r5 = signRefreshToken cfg u t5 now ∧ r6 = signRefreshToken cfg u t6 now) ∧
    refreshHandler cfg S6 (signRefreshToken cfg u t1 now) now2 =
      .invalidRefreshToken ∧
    (∃ a s, refreshHandler cfg S6 (signRefreshToken cfg u t2 now) now2 = .ok a s) ∧
    (∃ a s, refreshHandler cfg S6 (signRefreshToken cfg u t3 now) now2 = .ok a s) ∧
    (∃ a s, refreshHandler cfg S6 (signRefreshToken cfg u t4 now) now2 = .ok a s) ∧
    (∃ a s, refreshHandler cfg S6 (signRefreshToken cfg u t5 now) now2 = .ok a s) ∧
    (∃ a s, refreshHandler cfg S6 (signRefreshToken cfg u t6 now) now2 = .ok a s) := by
  rw [login_singleton cfg cmp u hashv pw d t1 now [] hcmp] at hL1
  obtain ⟨ha1, hr1, hS1⟩ := LoginResult.ok.inj hL1
  norm_num at hS1
  subst hS1
  rw [login_singleton cfg cmp u hashv pw d t2 now _ hcmp] at hL2
  obtain ⟨ha2, hr2, hS2⟩ := LoginResult.ok.inj hL2
  norm_num at hS2
  subst hS2
  rw [login_singleton cfg cmp u hashv pw d t3 now _ hcmp] at hL3
  obtain ⟨ha3, hr3, hS3⟩ := LoginResult.ok.inj hL3
  norm_num at hS3
  subst hS3
  rw [login_singleton cfg cmp u hashv pw d t4 now _ hcmp] at hL4
  obtain ⟨ha4, hr4, hS4⟩ := LoginResult.ok.inj hL4
  norm_num at hS4
  subst hS4
  rw [login_singleton cfg cmp u hashv pw d t5 now _ hcmp] at hL5
  obtain ⟨ha5, hr5, hS5⟩ := LoginResult.ok.inj hL5
  norm_num at hS5
  subst hS5
  rw [login_singleton cfg cmp u hashv pw d t6 now _ hcmp] at hL6
  obtain ⟨ha6, hr6, hS6⟩ := LoginResult.ok.inj hL6
  norm_num at hS6
  subst hS6
  refine ⟨rfl, ⟨hr1.symm, hr2.symm, hr3.symm, hr4.symm, hr5.symm, hr6.symm⟩,
    ?_, ?_, ?_, ?_, ?_, ?_⟩
  · rw [refreshHandler_invalid_iff, jwtVerify_signRefresh]
    rintro ⟨-, u2, hu2, -, r2x, hr2x, hrtx⟩
    rw [List.mem_singleton] at hu2
    subst hu2
    simp only [List.mem_cons, List.not_mem_nil, or_false] at hr2x
    rcases hr2x with h | h | h | h | h <;>
      (subst h;
       simp [mkRec, signRefreshToken, jwtSign, Jwt.mk.injEq,
         RefreshJwtPayload.mk.injEq, h2, h3, h4, h5, h6] at hrtx)
  · rw [refreshHandler_ok_iff]
    exact ⟨by rw [jwtVerify_signRefresh]; rfl, _, List.mem_singleton.mpr rfl, rfl,
      mkRec cfg u t2 d now, by simp, rfl⟩
  · rw [refreshHandler_ok_iff]
    exact ⟨by rw [jwtVerify_signRefresh]; rfl, _, List.mem_singleton.mpr rfl, rfl,
      mkRec cfg u t3 d now, by simp, rfl⟩
  · rw [refreshHandler_ok_iff]
    exact ⟨by rw [jwtVerify_signRefresh]; rfl, _, List.mem_singleton.mpr rfl, rfl,
      mkRec cfg u t4 d now, by simp, rfl⟩
  · rw [refreshHandler_ok_iff]
    exact ⟨by rw [jwtVerify_signRefresh]; rfl, _, List.mem_singleton.mpr rfl, rfl,
      mkRec cfg u t5 d now, by simp, rfl⟩
  · rw [refreshHandler_ok_iff]
    exact ⟨by rw [jwtVerify_signRefresh]; rfl, _, List.mem_singleton.mpr rfl, rfl,
      mkRec cfg u t6 d now, by simp, rfl⟩

/-- Concrete instance of C6: six logins for alice with token ids "1".."6"
leave the records of logins 2..6; token "1" no longer refreshes, tokens
"2".."6" do. -/
theorem C6_sixth_login_evicts_first_witness :
    c6S6 = [{ username := aliceS, password := pwS, refreshTokens :=
        [mkRec demoCfg aliceS t2S devS 0, mkRec demoCfg aliceS t3S devS 0,
         mkRec demoCfg aliceS t4S devS 0, mkRec demoCfg aliceS t5S devS 0,
         mkRec demoCfg aliceS t6S devS 0] }] ∧
    (signRefreshToken demoCfg aliceS t1S 0 = signRefreshToken demoCfg aliceS t1S 0 ∧
     signRefreshToken demoCfg aliceS t2S 0 = signRefreshToken demoCfg aliceS t2S 0 ∧
     signRefreshToken demoCfg aliceS t3S 0 = signRefreshToken demoCfg aliceS t3S 0 ∧
     signRefreshToken demoCfg aliceS t4S 0 = signRefreshToken demoCfg aliceS t4S 0 ∧
     signRefreshToken demoCfg aliceS t5S 0 = signRefreshToken demoCfg aliceS t5S 0 ∧
     signRefreshToken demoCfg aliceS t6S 0 = signRefreshToken demoCfg aliceS t6S 0) ∧
    refreshHandler demoCfg c6S6 (signRefreshToken demoCfg aliceS t1S 0) 7 =
      .invalidRefreshToken ∧
    (∃ a s, refreshHandler demoCfg c6S6
      (signRefreshToken demoCfg aliceS t2S 0) 7 = .ok a s) ∧
    (∃ a s, refreshHandler demoCfg c6S6
      (signRefreshToken demoCfg aliceS t3S 0) 7 = .ok a s) ∧
    (∃ a s, refreshHandler demoCfg c6S6
      (signRefreshToken demoCfg aliceS t4S 0) 7 = .ok a s) ∧
    (∃ a s, refreshHandler demoCfg c6S6
      (signRefreshToken demoCfg aliceS t5S 0) 7 = .ok a s) ∧
    (∃ a s, refreshHandler demoCfg c6S6
      (signRefreshToken demoCfg aliceS t6S 0) 7 = .ok a s) :=
  C6_sixth_login_evicts_first demoCfg cmp0 aliceS pwS pwS devS
    t1S t2S t3S t4S t5S t6S 0 7
    (signAccessToken demoCfg aliceS 0) (signAccessToken demoCfg aliceS 0)
    (signAccessToken demoCfg aliceS 0) (signAccessToken demoCfg aliceS 0)
    (signAccessToken demoCfg aliceS 0) (signAccessToken demoCfg aliceS 0)
    (signRefreshToken demoCfg aliceS t1S 0) (signRefreshToken demoCfg aliceS t2S 0)
    (signRefreshToken demoCfg aliceS t3S 0) (signRefreshToken demoCfg aliceS t4S 0)
    (signRefreshToken demoCfg aliceS t5S 0) (signRefreshToken demoCfg aliceS t6S 0)
    c6S1 c6S2 c6S3 c6S4 c6S5 c6S6
    (by decide) (by decide) (by decide) (by decide) (by decide) (by decide)
    (by decide) (by decide) (by decide) (by decide) (by decide) (by decide)
